import Mathlib

/-!
Shallow embedding of the DNA-Cloner-App core (src/main.py): the feature
normalization loop and circular-map construction in
MainWindow.show_circular_map, and the extension dispatch in
MainWindow.process_dna_file, together with theorems settling the spec
claims about them.

Python strings are character sequences, so the string methods used by the
code (lower, endswith, slicing) are embedded as functions on String.data.
-/

namespace DNACloner

/-- Embedding of the Python method lower() on strings: lowercase every
character. -/
def pyLower (s : String) : String :=
  String.mk (s.data.map Char.toLower)

/-- Embedding of the Python method endswith(suffix) on strings. -/
def pyEndsWith (s suffix : String) : Bool :=
  suffix.data.isSuffixOf s.data

/-- Embedding of the Python slice s[:n]. -/
def pySlice (s : String) (n : Nat) : String :=
  String.mk (s.data.take n)

/-- A dna_features_viewer GraphicFeature as constructed at
src/main.py:205-208: GraphicFeature(start=start, end=end, strand=strand,
label=label).  The field named end in the source is a Lean keyword, so it
is written end_. -/
structure GraphicFeature where
  start : Int
  end_ : Int
  strand : Int
  label : String
deriving Repr, DecidableEq

/-- A raw SnapGene feature mapping as accessed by the loop at
src/main.py:194-208.  The code reads feat["start"], feat["end"]
(mandatory), feat.get("direction", "forward") and
feat.get("type", "Feature"); a name key may also be present in the raw
mapping (the spec label rule mentions it) but the code never reads it. -/
structure RawFeature where
  start : Int
  end_ : Int
  direction : Option String
  type : Option String
  name : Option String
deriving Repr, DecidableEq

/-- The mapping returned by snapgene_reader.snapgene_file_to_dict, as
accessed at src/main.py:161-163 and 194: data["seq"] (mandatory),
data.get("name", "Unknown") and data.get("features", []). -/
structure SnapgeneData where
  seq : String
  name : Option String
  features : Option (List RawFeature)
deriving Repr, DecidableEq

/-- The GraphicRecord constructed at src/main.py:211-214:
GraphicRecord(sequence_length=len(data["seq"]), features=features). -/
structure GraphicRecord where
  sequence_length : Nat
  features : List GraphicFeature
deriving Repr, DecidableEq

/-- One iteration of the feature loop at src/main.py:194-208:
start = feat["start"]; end = feat["end"];
direction = feat.get("direction", "forward").lower();
strand = +1 if direction == "forward" else -1;
label = feat.get("type", "Feature"). -/
def graphicFeatureOf (feat : RawFeature) : GraphicFeature :=
  let start := feat.start
  let end_ := feat.end_
  let direction := pyLower (feat.direction.getD "forward")
  let strand : Int := if direction = "forward" then 1 else -1
  let label := feat.type.getD "Feature"
  { start := start, end_ := end_, strand := strand, label := label }

/-- The whole feature loop of src/main.py:193-208: map every raw feature
of data.get("features", []) to a GraphicFeature, in source order. -/
def buildFeatures (data : SnapgeneData) : List GraphicFeature :=
  (data.features.getD []).map graphicFeatureOf

/-- The record construction at src/main.py:211-214. -/
def buildRecord (data : SnapgeneData) : GraphicRecord :=
  { sequence_length := data.seq.length, features := buildFeatures data }

/-- Observable window state touched by show_circular_map and
process_dna_file: the dna_details text box, the pixmap loaded into
plasmid_label, and the trace of files written by figure.savefig. -/
structure WindowState where
  dna_details : String
  plasmid_pixmap : Option String
  written_files : List String
deriving Repr, DecidableEq

/-- Embedding of MainWindow.show_circular_map (src/main.py:190-228):
build the features, build the GraphicRecord, plot it, save the figure to
the fixed path "plasmid.png" (src/main.py:222-223) and load that file
into the plasmid label (src/main.py:227-228).  The plotted record is
returned alongside the new window state. -/
def show_circular_map (data : SnapgeneData) (st : WindowState) :
    WindowState × GraphicRecord :=
  let record := buildRecord data
  let output_path := "plasmid.png"
  let st' := { st with
                written_files := st.written_files ++ [output_path],
                plasmid_pixmap := some output_path }
  (st', record)

/-- A record parsed by Bio.SeqIO.read (src/main.py:153,157); only its
identifier and sequence matter for the claims about the stub branches. -/
structure SeqIORecord where
  name : String
  seq : String
deriving Repr, DecidableEq

/-- Observable outcome of one process_dna_file call. -/
inductive LoadOutcome where
  /-- The final else branch (src/main.py:176-181): warning message box
  "Only .dna, .gb, and .fasta files are supported", then return. -/
  | unsupported : LoadOutcome
  /-- The .gb and .fasta branches (src/main.py:152-159): the file is
  parsed by SeqIO.read and then nothing is done with the result; the
  branch bodies are bare ellipsis placeholders. -/
  | stubHandled : LoadOutcome
  /-- The .dna branch (src/main.py:160-175): details shown and the
  circular map drawn from the parsed data. -/
  | loaded : GraphicRecord → LoadOutcome
  /-- The except handler (src/main.py:186-188): critical message box. -/
  | processError : String → LoadOutcome
deriving Repr, DecidableEq

/-- Embedding of MainWindow.process_dna_file (src/main.py:149-188).
The two external readers are passed in as oracles: seqioRead path fmt
stands for SeqIO.read(path, fmt), and snapgene_file_to_dict for the
SnapGene reader; a .error result stands for the reader raising, caught by
the except clause.  Dispatch is purely on the file-path suffix, in source
order: .gb, then .fasta, then .dna, else the unsupported warning. -/
def process_dna_file
    (seqioRead : String → String → Except String SeqIORecord)
    (snapgene_file_to_dict : String → Except String SnapgeneData)
    (file_path : String) (st : WindowState) : WindowState × LoadOutcome :=
  if pyEndsWith file_path ".gb" then
    match seqioRead file_path "genbank" with
    | .ok _ => (st, .stubHandled)
    | .error e => (st, .processError ("Failed to process file:\n" ++ e))
  else if pyEndsWith file_path ".fasta" then
    match seqioRead file_path "fasta" with
    | .ok _ => (st, .stubHandled)
    | .error e => (st, .processError ("Failed to process file:\n" ++ e))
  else if pyEndsWith file_path ".dna" then
    match snapgene_file_to_dict file_path with
    | .ok data =>
      let sequence := data.seq
      let name := data.name.getD "Unknown"
      let sequence_text :=
        "Name: " ++ name ++ "\n" ++
        "Length: " ++ toString sequence.length ++ " bp\n\n" ++
        "Sequence:\n" ++ pySlice sequence 100 ++ "..."
      let st1 := { st with dna_details := sequence_text }
      let res := show_circular_map data st1
      (res.1, .loaded res.2)
    | .error e => (st, .processError ("Failed to process file:\n" ++ e))
  else
    (st, .unsupported)

/-!
Spec-side comparison definitions.  These follow the words of the spec,
for comparison with the code-derived definitions above.
-/

/-- Modelled from the spec: the strand enum of section 3 with values
FORWARD, REVERSE, UNDIRECTED. -/
inductive Strand where
  | FORWARD : Strand
  | REVERSE : Strand
  | UNDIRECTED : Strand
deriving Repr, DecidableEq

/-- Modelled from the spec: the strand encoding table of section 4.3 read
on integer encodings, where +1 encodes FORWARD, -1 encodes REVERSE, and
anything else is no recognized directed encoding. -/
def strandOfInt (n : Int) : Strand :=
  if n = 1 then .FORWARD else if n = -1 then .REVERSE else .UNDIRECTED

/-- Modelled from the spec: the label resolution order of section 4.3,
which is explicit name field, else explicit type field, else the literal
"Feature". -/
def specLabel (name type : Option String) : String :=
  match name with
  | some n => n
  | none => type.getD "Feature"

/-!
Concrete inputs used by counterexamples and witnesses.
-/

/-- Fresh empty window state, as right after MainWindow.__init__. -/
def initState : WindowState :=
  { dna_details := "", plasmid_pixmap := none, written_files := [] }

/-- A raw feature with no direction field. -/
def rawNoDir : RawFeature :=
  { start := 0, end_ := 10, direction := none, type := some "CDS",
    name := none }

/-- A raw feature with an unrecognized direction string. -/
def rawOdd : RawFeature :=
  { start := 0, end_ := 10, direction := some "circular_both",
    type := some "CDS", name := none }

/-- A raw feature at 1-based-style coordinates 10..20. -/
def rawTen : RawFeature :=
  { start := 10, end_ := 20, direction := some "forward",
    type := some "CDS", name := none }

/-- A raw feature carrying both a name and a type. -/
def rawNamed : RawFeature :=
  { start := 0, end_ := 5, direction := some "forward", type := some "CDS",
    name := some "myGene" }

/-- A raw feature far out of bounds for a 500-length sequence. -/
def rawBad : RawFeature :=
  { start := 1000, end_ := 1100, direction := some "forward",
    type := some "CDS", name := none }

/-- A 500-character sequence. -/
def seq500 : String := String.mk (List.replicate 500 'A')

/-- SnapGene data with a 500-length LINEAR sequence and one out-of-bounds
feature. -/
def data500 : SnapgeneData :=
  { seq := seq500, name := none, features := some [rawBad] }

/-- A small SnapGene data value. -/
def dSmall : SnapgeneData :=
  { seq := "ACGTACGT", name := some "mini", features := some [rawTen] }

/-- A SeqIO oracle that parses every file as the FASTA content with
header line ">test" and sequence line "ACGTACGT". -/
def fastaTestReader : String → String → Except String SeqIORecord :=
  fun _ _ => .ok { name := "test", seq := "ACGTACGT" }

/-- A SeqIO oracle returning a different parsed record. -/
def fastaOtherReader : String → String → Except String SeqIORecord :=
  fun _ _ => .ok { name := "other", seq := "GGGG" }

/-- A SnapGene oracle that always raises. -/
def snapFailReader : String → Except String SnapgeneData :=
  fun _ => .error "unused"

/-- A SnapGene oracle returning a record with an empty sequence. -/
def snapEmptyReader : String → Except String SnapgeneData :=
  fun _ => .ok { seq := "", name := some "Empty", features := none }

/-- A SnapGene oracle returning data500. -/
def snap500Reader : String → Except String SnapgeneData :=
  fun _ => .ok data500

/-!
Claim theorems.
-/

/-- C1 counterexample: the claim says a feature with an absent or
unrecognized direction normalizes to UNDIRECTED, never silently to
FORWARD or REVERSE.  In the code (src/main.py:198-199) an absent
direction defaults to "forward" and hence to strand +1 (FORWARD), and an
unrecognized direction string maps to strand -1 (REVERSE). -/
theorem C1_counterexample :
    (graphicFeatureOf rawNoDir).strand = 1 ∧
    strandOfInt (graphicFeatureOf rawNoDir).strand = Strand.FORWARD ∧
    strandOfInt (graphicFeatureOf rawOdd).strand = Strand.REVERSE := by
  decide

/-- C1 amended: a raw feature with an absent direction field gets strand
+1 (FORWARD, via the default "forward"); a direction that does not
lowercase to "forward" gets strand -1 (REVERSE); the UNDIRECTED state is
never produced. -/
theorem C1_strand_mapping (f : RawFeature) :
    (f.direction = none → (graphicFeatureOf f).strand = 1) ∧
    (∀ d, f.direction = some d → pyLower d ≠ "forward" →
      (graphicFeatureOf f).strand = -1) ∧
    strandOfInt (graphicFeatureOf f).strand ≠ Strand.UNDIRECTED := by
  refine ⟨?_, ?_, ?_⟩
  · intro h
    simp [graphicFeatureOf, h]
    decide
  · intro d hd hne
    simp [graphicFeatureOf, hd, hne]
  · simp only [graphicFeatureOf, strandOfInt]
    by_cases h : pyLower (f.direction.getD "forward") = "forward" <;>
      simp [h]

/-- C1 witness: the absent-direction feature rawNoDir gets strand +1. -/
theorem C1_strand_mapping_witness :
    (graphicFeatureOf rawNoDir).strand = 1 :=
  (C1_strand_mapping rawNoDir).1 rfl

set_option maxRecDepth 8000 in
/-- C2 counterexample: the claim says a feature with out-of-bounds
coordinates (start=1000 on a 500-length LINEAR sequence) is dropped from
the record.  The code has no bounds check: loading such a file yields a
record that still contains the out-of-bounds feature. -/
theorem C2_counterexample :
    (process_dna_file fastaTestReader snap500Reader "plasmid.dna"
        initState).2 =
      .loaded { sequence_length := 500,
                features := [{ start := 1000, end_ := 1100, strand := 1,
                               label := "CDS" }] } ∧
    ([{ start := 1000, end_ := 1100, strand := 1, label := "CDS" }] :
        List GraphicFeature) ≠ [] := by
  constructor
  · decide
  · decide

/-- C2 amended: the load succeeds, but no feature is ever dropped and no
bounds validation happens: the record keeps the sequence length and every
raw feature, out-of-bounds ones included, in source order. -/
theorem C2_no_feature_dropped (data : SnapgeneData) :
    (buildRecord data).sequence_length = data.seq.length ∧
    (buildRecord data).features.length = (data.features.getD []).length ∧
    ∀ f, f ∈ data.features.getD [] →
      graphicFeatureOf f ∈ (buildRecord data).features := by
  refine ⟨rfl, ?_, ?_⟩
  · simp [buildRecord, buildFeatures]
  · intro f hf
    simp only [buildRecord, buildFeatures]
    exact List.mem_map_of_mem graphicFeatureOf hf

/-- C2 witness: the out-of-bounds feature rawBad is kept in the record
built from data500. -/
theorem C2_no_feature_dropped_witness :
    graphicFeatureOf rawBad ∈ (buildRecord data500).features :=
  (C2_no_feature_dropped data500).2.2 rawBad (by decide)

/-- C3 counterexample: the claim says a zero-length sequence is fatal
(ValidationError::EmptySequence, no record produced).  The code never
checks the sequence length: loading a .dna file whose parsed sequence is
empty succeeds and produces a record with sequence_length 0. -/
theorem C3_counterexample :
    (process_dna_file fastaTestReader snapEmptyReader "empty.dna"
        initState).2 =
      .loaded { sequence_length := 0, features := [] } := by
  decide

/-- C3 amended: a successfully parsed .dna record with an empty sequence
is accepted; the load completes with a record whose sequence_length is 0
(no empty-sequence rejection exists). -/
theorem C3_empty_sequence_accepted
    (seqioRead : String → String → Except String SeqIORecord)
    (snap : String → Except String SnapgeneData)
    (path : String) (st : WindowState) (data : SnapgeneData)
    (hgb : pyEndsWith path ".gb" = false)
    (hfa : pyEndsWith path ".fasta" = false)
    (hdna : pyEndsWith path ".dna" = true)
    (hread : snap path = .ok data)
    (hseq : data.seq = "") :
    (process_dna_file seqioRead snap path st).2 =
      .loaded { sequence_length := 0, features := buildFeatures data } := by
  simp only [process_dna_file, hgb, hfa, hdna, hread, Bool.false_eq_true,
    if_false, if_true, show_circular_map]
  have hlen : data.seq.length = 0 := by rw [hseq]; rfl
  simp [buildRecord, hlen]

/-- C3 witness: loading the empty-sequence record through the .dna branch
of process_dna_file yields a loaded record of length 0. -/
theorem C3_empty_sequence_accepted_witness :
    (process_dna_file fastaOtherReader snapEmptyReader "zero.dna"
        initState).2 =
      .loaded { sequence_length := 0,
                features := buildFeatures
                  { seq := "", name := some "Empty", features := none } } :=
  C3_empty_sequence_accepted fastaOtherReader snapEmptyReader "zero.dna"
    initState { seq := "", name := some "Empty", features := none }
    (by decide) (by decide) (by decide) rfl rfl

/-- C4: a file path whose extension is none of .gb, .fasta, .dna makes
process_dna_file return the unsupported-format warning, leaving the
window state untouched; the result is the same for every pair of reader
oracles, so no file content is read and no content sniffing happens. -/
theorem C4_unsupported_extension
    (seqioRead seqioRead' : String → String → Except String SeqIORecord)
    (snap snap' : String → Except String SnapgeneData)
    (path : String) (st : WindowState)
    (hgb : pyEndsWith path ".gb" = false)
    (hfa : pyEndsWith path ".fasta" = false)
    (hdna : pyEndsWith path ".dna" = false) :
    process_dna_file seqioRead snap path st = (st, .unsupported) ∧
    process_dna_file seqioRead snap path st =
      process_dna_file seqioRead' snap' path st := by
  have h : ∀ (s : String → String → Except String SeqIORecord)
      (n : String → Except String SnapgeneData),
      process_dna_file s n path st = (st, .unsupported) := by
    intro s n
    simp [process_dna_file, hgb, hfa, hdna]
  exact ⟨h seqioRead snap, (h seqioRead snap).trans (h seqioRead' snap').symm⟩

/-- C4 witness: the path "notes.txt" is rejected as unsupported with two
different reader pairs giving the identical result. -/
theorem C4_unsupported_extension_witness :
    process_dna_file fastaTestReader snap500Reader "notes.txt" initState =
      (initState, .unsupported) ∧
    process_dna_file fastaTestReader snap500Reader "notes.txt" initState =
      process_dna_file fastaOtherReader snapFailReader "notes.txt"
        initState :=
  C4_unsupported_extension fastaTestReader fastaOtherReader snap500Reader
    snapFailReader "notes.txt" initState (by decide) (by decide) (by decide)

/-- C5 counterexample: the claim says 1-based inclusive source
coordinates [s, e] become start = s-1, end = e.  The code
(src/main.py:195-196) copies start and end unchanged: a feature with
start 10 keeps start 10, not 9. -/
theorem C5_counterexample :
    (graphicFeatureOf rawTen).start = 10 ∧
    ¬((graphicFeatureOf rawTen).start = rawTen.start - 1) := by
  decide

/-- C5 amended: feature coordinates are passed through unchanged; no
coordinate-convention conversion is applied. -/
theorem C5_coords_passed_through (f : RawFeature) :
    (graphicFeatureOf f).start = f.start ∧
    (graphicFeatureOf f).end_ = f.end_ :=
  ⟨rfl, rfl⟩

/-- C6 counterexample: the claim says the label prefers the explicit name
field over the type field.  The code (src/main.py:202) uses only
feat.get("type", "Feature"): a feature named "myGene" of type "CDS" is
labelled "CDS", while the spec resolution order gives "myGene". -/
theorem C6_counterexample :
    (graphicFeatureOf rawNamed).label = "CDS" ∧
    specLabel rawNamed.name rawNamed.type = "myGene" ∧
    ¬((graphicFeatureOf rawNamed).label =
        specLabel rawNamed.name rawNamed.type) := by
  decide

/-- C6 amended: the label is the type field when present and the literal
"Feature" otherwise; the name field is ignored entirely. -/
theorem C6_label_ignores_name (f : RawFeature) (n₁ n₂ : Option String) :
    (graphicFeatureOf f).label = f.type.getD "Feature" ∧
    (graphicFeatureOf { f with name := n₁ }).label =
      (graphicFeatureOf { f with name := n₂ }).label :=
  ⟨rfl, rfl⟩

/-- C7 counterexample: the claim says loading a FASTA file with header
">test" and sequence "ACGTACGT" yields a canonical record with name
"test", that sequence, and no features.  In the code the .fasta branch
(src/main.py:156-159) parses the file and then does nothing: the outcome
is the stub, carrying no record at all, and it is identical no matter
what the parsed content was. -/
theorem C7_counterexample :
    (process_dna_file fastaTestReader snapFailReader "t.fasta"
        initState).2 = .stubHandled ∧
    process_dna_file fastaTestReader snapFailReader "t.fasta" initState =
      process_dna_file fastaOtherReader snapFailReader "t.fasta"
        initState := by
  decide

/-- C7 amended: for every .fasta path the file is parsed by SeqIO.read
and the parsed record is discarded; the branch produces no record and
leaves the window state unchanged. -/
theorem C7_fasta_stub
    (seqioRead : String → String → Except String SeqIORecord)
    (snap : String → Except String SnapgeneData)
    (path : String) (st : WindowState) (rec : SeqIORecord)
    (hgb : pyEndsWith path ".gb" = false)
    (hfa : pyEndsWith path ".fasta" = true)
    (hread : seqioRead path "fasta" = .ok rec) :
    process_dna_file seqioRead snap path st = (st, .stubHandled) := by
  simp [process_dna_file, hgb, hfa, hread]

/-- C7 witness: the FASTA file parsed as name "test", sequence "ACGTACGT"
is handled by the stub branch. -/
theorem C7_fasta_stub_witness :
    process_dna_file fastaTestReader snapFailReader "seqs.fasta"
        initState = (initState, .stubHandled) :=
  C7_fasta_stub fastaTestReader snapFailReader "seqs.fasta" initState
    { name := "test", seq := "ACGTACGT" } (by decide) (by decide) rfl

/-- C8 counterexample: the claim says computing the circular layout does
not persist or name the rendered image, leaving that to an external
renderer.  The code itself saves the figure to the fixed path
"plasmid.png" (src/main.py:222-223) and loads it into the label. -/
theorem C8_counterexample :
    (show_circular_map dSmall initState).1.written_files =
      ["plasmid.png"] ∧
    (["plasmid.png"] : List String) ≠ [] ∧
    (show_circular_map dSmall initState).1.plasmid_pixmap =
      some "plasmid.png" := by
  decide

/-- C8 amended: every call of show_circular_map itself writes the image
artifact under the fixed name "plasmid.png" and points the plasmid label
at that file. -/
theorem C8_saves_plasmid_png (data : SnapgeneData) (st : WindowState) :
    (show_circular_map data st).1.written_files =
      st.written_files ++ ["plasmid.png"] ∧
    (show_circular_map data st).1.plasmid_pixmap = some "plasmid.png" :=
  ⟨rfl, rfl⟩

/-- C9: the layout computation is deterministic and idempotent: the
record produced by show_circular_map depends only on the input data, not
on the window state, and calling it twice in a row on the same data gives
identical records. -/
theorem C9_layout_deterministic (data : SnapgeneData)
    (st st' : WindowState) :
    (show_circular_map data st).2 = (show_circular_map data st').2 ∧
    (show_circular_map data (show_circular_map data st).1).2 =
      (show_circular_map data st).2 :=
  ⟨rfl, rfl⟩

/-- C10: every GraphicFeature handed to the rendering layer has strand +1
or -1; no third strand state is ever produced, whatever the raw feature
contained. -/
theorem C10_strand_two_valued (data : SnapgeneData) (g : GraphicFeature)
    (hg : g ∈ (buildRecord data).features) :
    g.strand = 1 ∨ g.strand = -1 := by
  simp only [buildRecord, buildFeatures, List.mem_map] at hg
  obtain ⟨f, _, rfl⟩ := hg
  simp only [graphicFeatureOf]
  by_cases h : pyLower (f.direction.getD "forward") = "forward"
  · left
    simp [h]
  · right
    simp [h]

/-- C10 witness: the feature built from rawTen inside dSmall has strand
in {+1, -1}. -/
theorem C10_strand_two_valued_witness :
    (graphicFeatureOf rawTen).strand = 1 ∨
    (graphicFeatureOf rawTen).strand = -1 :=
  C10_strand_two_valued dSmall (graphicFeatureOf rawTen) (by decide)

end DNACloner
